import Mathlib

/-!
Verification of the war-room client of `paymentOpsAgent`.

The definitions below are a shallow embedding of the state containers and
state mutators of `src/frontend/src/app/war-room/page.tsx` and of the
fallback simulator hook `useSimulation` (src/unnamed/part_000).  Numeric
fields are modelled as rationals, JavaScript arrays as Lean lists (index 0
is the head, so `slice(-n)` is `List.rtake n` and `slice(0, n)` is
`List.take n`), and the values produced by `Math.random()` / `Date.now()`
are passed as explicit parameters.
-/

set_option maxRecDepth 10000

namespace PaymentOps

/-- One entry of the agent log feed (`AgentLog` in `types/dashboard`):
id, timestamp, stage, type and content are all strings at this level. -/
structure AgentLog where
  id : String
  timestamp : String
  stage : String
  type : String
  content : String
  deriving Repr, DecidableEq

/-- `addAgentLog` from `war-room/page.tsx`:
`setAgentLogs((prev) => [...prev.slice(-100), log])`. -/
def addAgentLog (prev : List AgentLog) (log : AgentLog) : List AgentLog :=
  prev.rtake 100 ++ [log]

/-- `addSystemLog` from `war-room/page.tsx`: builds a `system`-stage,
`thought`-type entry and appends it with the same `slice(-100)` pattern. -/
def addSystemLog (prev : List AgentLog) (id ts content : String) : List AgentLog :=
  prev.rtake 100 ++
    [{ id := id, timestamp := ts, stage := "system", type := "thought", content := content }]

theorem rtake_rtake {α : Type} (l : List α) (m n : Nat) :
    (l.rtake n).rtake m = l.rtake (min m n) := by
  simp [List.rtake_eq_reverse_take_reverse, List.reverse_reverse, List.take_take]

theorem foldl_addAgentLog (es : List AgentLog) :
    es.foldl addAgentLog [] = es.rtake 101 := by
  induction es using List.reverseRecOn with
  | nil => rfl
  | append_singleton es e ih =>
      rw [List.foldl_append]
      simp only [List.foldl_cons, List.foldl_nil, ih, addAgentLog]
      rw [rtake_rtake]
      simp

theorem length_rtake_le {α : Type} (l : List α) (n : Nat) :
    (l.rtake n).length ≤ n := by
  simp only [List.rtake_eq_reverse_take_reverse, List.length_reverse, List.length_take]
  exact min_le_left _ _

/-- Claim C1: for every sequence of log appends (dispatcher, system-log
helper, or simulator — all of which go through the `slice(-100)`-and-append
pattern), the log store holds at most 101 entries, and the retained entries
are exactly the most recently appended ones in arrival order (the length-101
tail suffix of the append sequence); the system-log helper is the same
append applied to a synthesized `system`-stage entry. -/
theorem log_store_bounded_and_recent (es : List AgentLog)
    (prev : List AgentLog) (id ts content : String) :
    (es.foldl addAgentLog []).length ≤ 101 ∧
    es.foldl addAgentLog [] = es.rtake 101 ∧
    addSystemLog prev id ts content =
      addAgentLog prev
        { id := id, timestamp := ts, stage := "system", type := "thought", content := content } := by
  refine ⟨?_, foldl_addAgentLog es, rfl⟩
  rw [foldl_addAgentLog es]
  exact length_rtake_le es 101

/-- Payload of an inbound `intervention` message (`data.data`), as consumed
by the dispatcher in `connectWebSocket`.  `params` is kept abstract. -/
structure InterventionData where
  id : String
  timestamp : String
  type : String
  action : String
  description : String
  params : Option String
  success : Bool
  requires_approval : Bool
  approved_by : Option String
  deriving Repr, DecidableEq

/-- A record of the Intervention Ledger (`Intervention` in
`types/dashboard`), with the two derived rollback fields. -/
structure Intervention where
  id : String
  timestamp : String
  type : String
  action : String
  description : String
  params : Option String
  success : Bool
  requires_approval : Bool
  approved_by : Option String
  canRollback : Bool
  rollbackAction : Option String
  deriving Repr, DecidableEq

/-- The proposed-intervention descriptor carried inside an approval request
(`approval.intervention`): the dispatcher reads its `description`, and
`handleApprove` spreads it into the new ledger record. -/
structure ProposedIntervention where
  action : String
  description : String
  params : Option String
  rollbackAction : Option String
  deriving Repr, DecidableEq

/-- Payload of an `approval_required` message (`ApprovalRequest` in
`types/dashboard`). -/
structure ApprovalRequest where
  intervention_id : String
  intervention : ProposedIntervention
  risk_score : ℚ
  hypothesis : String
  deriving Repr, DecidableEq

/-- The fixed reversible-action array of the dispatcher:
`["switch_gateway", "adjust_retry_config", "suppress_payment_method"]`. -/
def reversibleActions : List String :=
  ["switch_gateway", "adjust_retry_config", "suppress_payment_method"]

/-- `getRollbackAction` from `war-room/page.tsx`: the fixed
action-to-description lookup table, `none` on unknown keys. -/
def getRollbackAction (action : String) : Option String :=
  if action = "switch_gateway" then some "Restore original routing weights"
  else if action = "adjust_retry_config" then some "Revert to previous retry settings"
  else if action = "suppress_payment_method" then some "Re-enable payment method"
  else none

/-- The `intervention` case of the dispatcher: spread the payload and add
`canRollback` (membership in `reversibleActions` via `includes`) and
`rollbackAction` (via `getRollbackAction`). -/
def mkIntervention (d : InterventionData) : Intervention :=
  { id := d.id, timestamp := d.timestamp, type := d.type, action := d.action,
    description := d.description, params := d.params, success := d.success,
    requires_approval := d.requires_approval, approved_by := d.approved_by,
    canRollback := reversibleActions.contains d.action,
    rollbackAction := getRollbackAction d.action }

/-- The ledger update of the dispatcher's `intervention` case:
`setInterventions((prev) => [intervention, ...prev.slice(0, 49)])`. -/
def recordIntervention (prev : List Intervention) (i : Intervention) : List Intervention :=
  i :: prev.take 49

/-- The queue update of the dispatcher's `approval_required` case: a no-op
when some queued entry already has the payload's `intervention_id`,
otherwise `[data.data, ...prev].slice(0, 50)`. -/
def enqueueApproval (prev : List ApprovalRequest) (a : ApprovalRequest) : List ApprovalRequest :=
  if prev.any (fun p => p.intervention_id == a.intervention_id) then prev
  else (a :: prev).take 50

/-- The ledger record built by `handleApprove` (both on fetch success and in
the catch branch): spread `approval.intervention`, then override `id`,
`timestamp`, `type`, `action`, `success`, `requires_approval`,
`approved_by` and `canRollback` with fixed values. -/
def approvalRecord (a : ApprovalRequest) (ts : String) : Intervention :=
  { id := a.intervention_id, timestamp := ts, type := "switch_gateway",
    action := "switch_gateway", description := a.intervention.description,
    params := a.intervention.params, success := true, requires_approval := true,
    approved_by := some "human", canRollback := true,
    rollbackAction := a.intervention.rollbackAction }

/-- The pieces of war-room page state touched by the approval handlers. -/
structure WarRoomState where
  pendingApprovals : List ApprovalRequest
  interventions : List Intervention
  agentLogs : List AgentLog
  deriving Repr, DecidableEq

/-- `handleApprove` from `war-room/page.tsx`.  `fetchOk` tells whether the
outbound approve call succeeded: on success an `act`-stage log entry is
appended; in both branches the same fixed-field record is prepended to the
ledger (with no truncation), and the approval is filtered out of the queue
afterwards in either case. -/
def handleApprove (fetchOk : Bool) (st : WarRoomState) (a : ApprovalRequest)
    (logId ts : String) : WarRoomState :=
  let st1 :=
    if fetchOk then
      { st with
        agentLogs := addAgentLog st.agentLogs
          { id := logId, timestamp := ts, stage := "act", type := "action",
            content := "✅ Approved: " ++ a.intervention.description } }
    else st
  { st1 with
    interventions := approvalRecord a ts :: st1.interventions,
    pendingApprovals :=
      st1.pendingApprovals.filter (fun p => p.intervention_id != a.intervention_id) }

/-- `handleReject` from `war-room/page.tsx`: the outbound reject call's
outcome (`fetchOk`) is swallowed; the queue is filtered either way. -/
def handleReject (_fetchOk : Bool) (st : WarRoomState) (a : ApprovalRequest) : WarRoomState :=
  { st with
    pendingApprovals :=
      st.pendingApprovals.filter (fun p => p.intervention_id != a.intervention_id) }

/-- JavaScript `Math.min` on two (non-NaN) numbers. -/
def jsMin (a b : ℚ) : ℚ := if a ≤ b then a else b

/-- JavaScript `Math.max` on two (non-NaN) numbers. -/
def jsMax (a b : ℚ) : ℚ := if a ≤ b then b else a

/-- JavaScript clamp idiom `Math.max(lo, Math.min(hi, x))`. -/
def clampQ (lo hi x : ℚ) : ℚ := jsMax lo (jsMin hi x)

theorem jsMin_eq_min (a b : ℚ) : jsMin a b = min a b := (min_def a b).symm

theorem jsMax_eq_max (a b : ℚ) : jsMax a b = max a b := (max_def a b).symm

/-- `SystemMetrics` from `types/dashboard`, numeric fields as rationals. -/
structure SystemMetrics where
  success_rate : ℚ
  avg_latency : ℚ
  transaction_volume : ℚ
  error_rate : ℚ
  timestamp : String
  deriving Repr, DecidableEq

/-- `BankHealth` from `types/dashboard`.  `weight` is optional at runtime
(the simulator defends against its absence with `bank.weight || 25`). -/
structure BankHealth where
  name : String
  display_name : String
  status : String
  success_rate : ℚ
  avg_latency : ℚ
  weight : Option ℚ
  last_updated : String
  deriving Repr, DecidableEq

/-- One metrics drift tick of `useSimulation` (the `setMetrics` updater):
`r1`, `r2`, `r3` are the three `Math.random()` draws and `now` the new
timestamp.  Note that `error_rate` is computed from `prev.success_rate`,
the value the snapshot held before this tick. -/
def driftMetrics (prev : SystemMetrics) (r1 r2 r3 : ℚ) (now : String) : SystemMetrics :=
  { success_rate := clampQ 85 99 (prev.success_rate + (r1 - 1/2) * 2),
    avg_latency := clampQ 100 500 (prev.avg_latency + (r2 - 1/2) * 50),
    transaction_volume := ((prev.transaction_volume + (r3 - 1/2) * 500).floor : ℤ),
    error_rate := clampQ 1 15 (100 - prev.success_rate),
    timestamp := now }

/-- The status thresholds of the drift tick (and of spec §3):
`down` below 85, `degraded` below 92, else `healthy`. -/
def thresholdStatus (rate : ℚ) : String :=
  if rate < 85 then "down" else if rate < 92 then "degraded" else "healthy"

/-- JavaScript `bank.weight || 25`: 25 when the field is absent or falsy. -/
def weightOr25 (w : Option ℚ) : ℚ :=
  match w with
  | none => 25
  | some v => if v = 0 then 25 else v

/-- One bank drift tick of `useSimulation` (the per-element body of the
`setBanks` updater): `r1`, `r2` are the two `Math.random()` draws.  Note
that `status` is computed from `bank.success_rate`, the value the record
held before this tick. -/
def driftBank (bank : BankHealth) (r1 r2 : ℚ) (now : String) : BankHealth :=
  { bank with
    success_rate := clampQ 80 (199/2) (bank.success_rate + (r1 - 1/2) * 1),
    avg_latency := clampQ 100 400 (bank.avg_latency + (r2 - 1/2) * 20),
    status := if bank.success_rate < 85 then "down"
      else if bank.success_rate < 92 then "degraded" else "healthy",
    last_updated := now,
    weight := some (weightOr25 bank.weight) }

/-- The fixed five-stage cycle of the narration generator. -/
def stages : List String := ["observe", "reason", "decide", "act", "learn"]

/-- The fixed per-stage message table of the narration generator
(type and content of each candidate entry). -/
def thoughtMessages (stage : String) : List (String × String) :=
  if stage = "observe" then
    [("thought", "📡 Scanning payment infrastructure..."),
     ("prompt", "[Gemini] Analyze current metrics: success_rate=97.2%, latency=215ms"),
     ("response", "[Gemini] Metrics within normal parameters. No immediate concerns."),
     ("thought", "📊 Collected 50 transactions, 0 anomalies detected")]
  else if stage = "reason" then
    [("thought", "🧠 Analyzing patterns and forming hypotheses..."),
     ("prompt", "[Gemini] Given error_rate=2.8%, what is the likely cause?"),
     ("response", "[Gemini] Normal variance. Recommend continued monitoring."),
     ("thought", "💡 Hypothesis: System operating normally, risk score: 0.15")]
  else if stage = "decide" then
    [("thought", "⚖️ Evaluating intervention options..."),
     ("thought", "📋 Risk below threshold - no intervention needed"),
     ("thought", "✅ Decision: Continue monitoring")]
  else if stage = "act" then
    [("action", "🚀 Executing: Maintain current configuration"),
     ("thought", "✅ No changes required")]
  else if stage = "learn" then
    [("thought", "📚 Recording observations for future reference"),
     ("thought", "💾 Pattern stored in memory")]
  else []

/-- The narration generator's local state: the cycle index, plus the log
store and current-stage cell it writes through. -/
structure NarrationState where
  stageIndex : Nat
  logs : List AgentLog
  currentStage : String
  deriving Repr, DecidableEq

/-- The log entry a narration tick would append: the current stage's
message list indexed by the random draw `pick` (reduced mod its length),
stamped with the given id and timestamp. -/
def narrationEntry (st : NarrationState) (pick : Nat) (id ts : String) : AgentLog :=
  let stage := stages.getD st.stageIndex ""
  let msgs := thoughtMessages stage
  let msg := msgs.getD (pick % msgs.length) ("thought", "")
  { id := id, timestamp := ts, stage := stage, type := msg.1, content := msg.2 }

/-- One tick of the narration interval in `useSimulation`: when
`agentRunning` is false the callback returns at once (before touching
`stageIndex`); otherwise it appends the picked entry through `addAgentLog`,
sets the current stage, and advances `stageIndex` by one modulo 5. -/
def narrationTick (st : NarrationState) (agentRunning : Bool) (pick : Nat)
    (id ts : String) : NarrationState :=
  if agentRunning then
    { stageIndex := (st.stageIndex + 1) % stages.length,
      logs := addAgentLog st.logs (narrationEntry st pick id ts),
      currentStage := stages.getD st.stageIndex "" }
  else st

/-- A sample `intervention` payload used to instantiate hypotheses on
concrete inputs. -/
def sampleInterventionData (act : String) : InterventionData :=
  { id := "int_1", timestamp := "t0", type := "mitigation", action := act,
    description := "Shift traffic", params := none, success := true,
    requires_approval := false, approved_by := none }

/-- Claim C7: the recorded intervention's `canRollback` is true exactly when
its action lies in the fixed reversible set, its `rollbackAction` is the
fixed mapped description for that action, and in particular a
`switch_gateway` intervention gets `canRollback = true` and
`rollbackAction = "Restore original routing weights"`. -/
theorem intervention_rollback_metadata (d : InterventionData) :
    ((mkIntervention d).canRollback = true ↔ d.action ∈ reversibleActions) ∧
    (mkIntervention d).rollbackAction = getRollbackAction d.action ∧
    (d.action = "switch_gateway" →
      (mkIntervention d).canRollback = true ∧
      (mkIntervention d).rollbackAction = some "Restore original routing weights") := by
  refine ⟨?_, rfl, ?_⟩
  · simp [mkIntervention]
  · intro h
    constructor
    · simp [mkIntervention, reversibleActions, h]
    · simp [mkIntervention, getRollbackAction, h]

/-- Witness for C7: the `switch_gateway` case evaluated on a concrete
payload. -/
theorem intervention_rollback_metadata_witness :
    (mkIntervention (sampleInterventionData "switch_gateway")).canRollback = true ∧
    (mkIntervention (sampleInterventionData "switch_gateway")).rollbackAction =
      some "Restore original routing weights" :=
  (intervention_rollback_metadata (sampleInterventionData "switch_gateway")).2.2 rfl

/-- Claim C8: resolving an approval (approve or reject) keeps exactly the
queued entries whose `intervention_id` differs from the resolved one — so it
removes the resolved id and nothing else — and it does so whether the
outbound HTTP call succeeded (`ok = true`) or failed. -/
theorem resolve_removes_exactly_target (ok : Bool) (st : WarRoomState)
    (a p : ApprovalRequest) (logId ts : String) :
    (p ∈ (handleApprove ok st a logId ts).pendingApprovals ↔
      p ∈ st.pendingApprovals ∧ p.intervention_id ≠ a.intervention_id) ∧
    (p ∈ (handleReject ok st a).pendingApprovals ↔
      p ∈ st.pendingApprovals ∧ p.intervention_id ≠ a.intervention_id) ∧
    (handleApprove true st a logId ts).pendingApprovals =
      (handleApprove false st a logId ts).pendingApprovals ∧
    (handleReject true st a).pendingApprovals = (handleReject false st a).pendingApprovals := by
  refine ⟨?_, ?_, rfl, rfl⟩ <;>
    cases ok <;> simp [handleApprove, handleReject, List.mem_filter]

/-- For `lo ≤ hi`, the JavaScript clamp `max lo (min hi x)` lands in
`[lo, hi]`. -/
theorem clampQ_bounds (lo hi x : ℚ) (h : lo ≤ hi) :
    lo ≤ clampQ lo hi x ∧ clampQ lo hi x ≤ hi := by
  rw [clampQ, jsMax_eq_max, jsMin_eq_min]
  exact ⟨le_max_left _ _, max_le h (min_le_left _ _)⟩

/-- Claim C9: after any single drift tick — hence after arbitrarily many,
since every tick re-clamps — the metrics snapshot satisfies
`success_rate ∈ [85,99]`, `avg_latency ∈ [100,500]`, `error_rate ∈ [1,15]`,
and every drifted bank satisfies `success_rate ∈ [80,99.5]` and
`avg_latency ∈ [100,400]`, regardless of the prior state and of the random
draws. -/
theorem drift_tick_bounds (m : SystemMetrics) (b : BankHealth) (r1 r2 r3 s1 s2 : ℚ)
    (mnow bnow : String) :
    (85 ≤ (driftMetrics m r1 r2 r3 mnow).success_rate ∧
      (driftMetrics m r1 r2 r3 mnow).success_rate ≤ 99) ∧
    (100 ≤ (driftMetrics m r1 r2 r3 mnow).avg_latency ∧
      (driftMetrics m r1 r2 r3 mnow).avg_latency ≤ 500) ∧
    (1 ≤ (driftMetrics m r1 r2 r3 mnow).error_rate ∧
      (driftMetrics m r1 r2 r3 mnow).error_rate ≤ 15) ∧
    (80 ≤ (driftBank b s1 s2 bnow).success_rate ∧
      (driftBank b s1 s2 bnow).success_rate ≤ 199/2) ∧
    (100 ≤ (driftBank b s1 s2 bnow).avg_latency ∧
      (driftBank b s1 s2 bnow).avg_latency ≤ 400) := by
  refine ⟨?_, ?_, ?_, ?_, ?_⟩ <;> exact clampQ_bounds _ _ _ (by norm_num)

/-- Claim C10: approving a pending request prepends a ledger record whose
`type` and `action` are hard-coded to `switch_gateway`, with
`canRollback = true`, `success = true`, `requires_approval = true` and
`approved_by = "human"`, whatever action the underlying proposed
intervention carried and whether or not the HTTP call succeeded. -/
theorem approve_fixes_record_fields (ok : Bool) (st : WarRoomState) (a : ApprovalRequest)
    (logId ts : String) :
    (handleApprove ok st a logId ts).interventions = approvalRecord a ts :: st.interventions ∧
    (approvalRecord a ts).type = "switch_gateway" ∧
    (approvalRecord a ts).action = "switch_gateway" ∧
    (approvalRecord a ts).canRollback = true ∧
    (approvalRecord a ts).success = true ∧
    (approvalRecord a ts).requires_approval = true ∧
    (approvalRecord a ts).approved_by = some "human" := by
  refine ⟨?_, rfl, rfl, rfl, rfl, rfl, rfl⟩
  cases ok <;> rfl

/-- A concrete bank record sitting just below the `degraded`/`healthy`
threshold (success_rate = 91.8). -/
def bankNearThreshold : BankHealth :=
  { name := "HDFC", display_name := "HDFC Bank", status := "degraded",
    success_rate := 459/5, avg_latency := 180, weight := some 40, last_updated := "t0" }

/-- Claim C3 counterexample: a drift tick with draw `r1 = 0.9` moves the
bank's success_rate from 91.8 to 92.2, yet the stored status is
`degraded` — the threshold function of the old rate — while the threshold
function of the new, post-perturbation rate is `healthy`.  The claim as
stated is therefore false. -/
theorem bank_status_stale_counterexample :
    (driftBank bankNearThreshold (9/10) (1/2) "t1").success_rate = 461/5 ∧
    (driftBank bankNearThreshold (9/10) (1/2) "t1").status = "degraded" ∧
    thresholdStatus (driftBank bankNearThreshold (9/10) (1/2) "t1").success_rate = "healthy" := by
  refine ⟨?_, ?_, ?_⟩ <;>
    norm_num [driftBank, bankNearThreshold, clampQ, jsMin, jsMax, thresholdStatus]

/-- Claim C3 (amended): after a simulator drift tick, each bank's status
equals the pure threshold function — `down` below 85, `degraded` below 92,
else `healthy` — of that bank's PRE-perturbation success_rate (the status
lags the perturbation by one tick). -/
theorem bank_status_from_old_rate (b : BankHealth) (r1 r2 : ℚ) (now : String) :
    (driftBank b r1 r2 now).status = thresholdStatus b.success_rate := rfl

/-- A concrete metrics snapshot with success_rate = 97. -/
def metricsAt97 : SystemMetrics :=
  { success_rate := 97, avg_latency := 215, transaction_volume := 12450,
    error_rate := 5/2, timestamp := "t0" }

/-- Claim C4 counterexample: a drift tick with draw `r1 = 0.9` moves
success_rate from 97 to 97.8, but the stored error_rate is
`clamp(100 − 97) = 3`, not `clamp(100 − 97.8) = 2.2`: error_rate is not
100 minus the NEW success_rate.  The claim as stated is therefore false. -/
theorem error_rate_stale_counterexample :
    (driftMetrics metricsAt97 (9/10) (1/2) (1/2) "t1").success_rate = 489/5 ∧
    (driftMetrics metricsAt97 (9/10) (1/2) (1/2) "t1").error_rate = 3 ∧
    clampQ 1 15 (100 - (driftMetrics metricsAt97 (9/10) (1/2) (1/2) "t1").success_rate)
      = 11/5 := by
  refine ⟨?_, ?_, ?_⟩ <;>
    norm_num [driftMetrics, metricsAt97, clampQ, jsMin, jsMax]

/-- Claim C4 (amended): after every simulator drift tick, the snapshot's
error_rate equals 100 minus the PRE-perturbation success_rate, clamped to
`[1,15]` (it lags the freshly perturbed success_rate by one tick). -/
theorem error_rate_from_old_rate (m : SystemMetrics) (r1 r2 r3 : ℚ) (now : String) :
    (driftMetrics m r1 r2 r3 now).error_rate = clampQ 1 15 (100 - m.success_rate) := rfl

/-- A concrete narration state in the middle of the five-stage cycle. -/
def narrationAtDecide : NarrationState :=
  { stageIndex := 2, logs := [], currentStage := "decide" }

/-- Claim C5 counterexample: with agent execution disabled the tick callback
returns before touching `stageIndex`, so a suppressed tick leaves the cycle
position at 2 instead of advancing it to 3.  The claim that the position
advances exactly once regardless of suppression is therefore false. -/
theorem narration_suppressed_counterexample :
    (narrationTick narrationAtDecide false 0 "demo_1" "t1").stageIndex = 2 ∧
    (narrationAtDecide.stageIndex + 1) % 5 = 3 ∧
    (narrationTick narrationAtDecide false 0 "demo_1" "t1").logs = [] := by
  refine ⟨rfl, rfl, rfl⟩

/-- Claim C5 (amended): a narration tick with agent execution disabled is a
complete no-op — it appends no log entry AND does not advance the cycle
position — while a tick with agent execution enabled appends exactly one
entry through the bounded log append and advances the cycle position exactly
once, wrapping modulo 5. -/
theorem narration_tick_amended (st : NarrationState) (pick : Nat) (id ts : String) :
    narrationTick st false pick id ts = st ∧
    (narrationTick st true pick id ts).stageIndex = (st.stageIndex + 1) % 5 ∧
    (narrationTick st true pick id ts).logs =
      addAgentLog st.logs (narrationEntry st pick id ts) :=
  ⟨rfl, rfl, rfl⟩

/-- A minimal approval request with the given `intervention_id`. -/
def mkApproval (iid : String) : ApprovalRequest :=
  { intervention_id := iid,
    intervention := { action := "switch_gateway", description := "Shift traffic",
                      params := none, rollbackAction := none },
    risk_score := 1/2, hypothesis := "h" }

/-- A queue reached by enqueuing 50 approval messages with pairwise
distinct intervention_ids. -/
def fullApprovalQueue : List ApprovalRequest :=
  ((List.range 50).map (fun i => mkApproval (toString i))).foldl enqueueApproval []

/-- Claim C2 counterexample: at capacity the `slice(0, 50)` truncation keeps
the length at 50, so two `approval_required` messages sharing a fresh
intervention_id arriving at a 50-entry queue increase its length by 0, not
by exactly 1 as claimed. -/
theorem approval_queue_full_counterexample :
    fullApprovalQueue.length = 50 ∧
    (enqueueApproval (enqueueApproval fullApprovalQueue (mkApproval "fresh"))
        (mkApproval "fresh")).length = 50 := by
  constructor <;> decide

theorem enqueueApproval_length_le (q : List ApprovalRequest) (a : ApprovalRequest)
    (h : q.length ≤ 50) : (enqueueApproval q a).length ≤ 50 := by
  unfold enqueueApproval
  split
  · exact h
  · rw [List.length_take]
    exact min_le_left _ _

theorem enqueueApproval_nodup (q : List ApprovalRequest) (a : ApprovalRequest)
    (h : (q.map (fun p => p.intervention_id)).Nodup) :
    ((enqueueApproval q a).map (fun p => p.intervention_id)).Nodup := by
  unfold enqueueApproval
  split
  · exact h
  · rename_i hany
    rw [List.map_take]
    apply List.Nodup.sublist (List.take_sublist _ _)
    rw [List.map_cons]
    refine List.nodup_cons.mpr ⟨?_, h⟩
    intro hmem
    obtain ⟨p, hp, hpid⟩ := List.mem_map.mp hmem
    exact hany (List.any_eq_true.mpr ⟨p, hp, by simp [hpid]⟩)

theorem foldl_enqueueApproval_invariant (msgs : List ApprovalRequest)
    (q : List ApprovalRequest) (hlen : q.length ≤ 50)
    (hnd : (q.map (fun p => p.intervention_id)).Nodup) :
    (msgs.foldl enqueueApproval q).length ≤ 50 ∧
    ((msgs.foldl enqueueApproval q).map (fun p => p.intervention_id)).Nodup := by
  induction msgs generalizing q with
  | nil => exact ⟨hlen, hnd⟩
  | cons a msgs ih =>
      exact ih _ (enqueueApproval_length_le q a hlen) (enqueueApproval_nodup q a hnd)

/-- Claim C2 (amended): starting from the empty queue, any sequence of
`approval_required` messages leaves at most 50 entries with pairwise
distinct intervention_ids (at most one entry per id at any time); a message
whose intervention_id is already queued leaves the queue unchanged; and two
consecutive messages sharing a not-yet-queued intervention_id increase the
queue length by exactly 1 PROVIDED the queue holds fewer than 50 entries —
at capacity the truncation to 50 makes the increase 0 instead. -/
theorem approval_queue_dedup (msgs : List ApprovalRequest) (q : List ApprovalRequest)
    (a b : ApprovalRequest) :
    (msgs.foldl enqueueApproval []).length ≤ 50 ∧
    ((msgs.foldl enqueueApproval []).map (fun p => p.intervention_id)).Nodup ∧
    (q.any (fun p => p.intervention_id == a.intervention_id) = true →
      enqueueApproval q a = q) ∧
    (a.intervention_id = b.intervention_id →
      q.any (fun p => p.intervention_id == a.intervention_id) = false →
      q.length < 50 →
      (enqueueApproval (enqueueApproval q a) b).length = q.length + 1) := by
  refine ⟨(foldl_enqueueApproval_invariant msgs [] (by simp) (by simp)).1,
          (foldl_enqueueApproval_invariant msgs [] (by simp) (by simp)).2, ?_, ?_⟩
  · intro h
    simp [enqueueApproval, h]
  · intro hab hfresh hlen
    have h1 : enqueueApproval q a = a :: q := by
      unfold enqueueApproval
      rw [hfresh]
      simp only [Bool.false_eq_true, if_false]
      exact List.take_of_length_le (by simp; omega)
    have h2 : (a :: q).any (fun p => p.intervention_id == b.intervention_id) = true := by
      simp [hab]
    rw [h1]
    unfold enqueueApproval
    rw [h2]
    simp

/-- Witness for the amended C2: a duplicate of the only queued id is a
no-op, and two messages with a fresh shared id on a 1-entry queue take the
length to 2. -/
theorem approval_queue_dedup_witness :
    enqueueApproval [mkApproval "A"] (mkApproval "A") = [mkApproval "A"] ∧
    (enqueueApproval (enqueueApproval [mkApproval "A"] (mkApproval "B"))
        (mkApproval "B")).length = 2 := by
  constructor
  · exact (approval_queue_dedup [] [mkApproval "A"] (mkApproval "A")
      (mkApproval "A")).2.2.1 (by decide)
  · have h := (approval_queue_dedup [] [mkApproval "A"] (mkApproval "B")
      (mkApproval "B")).2.2.2 rfl (by decide) (by decide)
    simpa using h

/-- A ledger reached from 50 dispatcher `intervention` messages. -/
def fullLedger : List Intervention :=
  ((List.replicate 50 (sampleInterventionData "switch_gateway")).map mkIntervention).foldl
    recordIntervention []

/-- Claim C6 counterexample: after 50 dispatcher intervention messages the
ledger holds 50 records, yet approving a pending request prepends WITHOUT
truncating, leaving 51 records — so not every ledger-extending operation
truncates to 50, and the ledger can exceed 50 entries.  The claim as stated
is therefore false. -/
theorem ledger_approve_overflow_counterexample :
    fullLedger.length = 50 ∧
    (handleApprove false
        { pendingApprovals := [], interventions := fullLedger, agentLogs := [] }
        (mkApproval "X") "log_1" "t1").interventions.length = 51 := by
  constructor <;> decide

theorem foldl_recordIntervention (l : List Intervention) :
    l.foldl recordIntervention [] = (l.rtake 50).reverse := by
  induction l using List.reverseRecOn with
  | nil => rfl
  | append_singleton es e ih =>
      rw [List.foldl_append]
      simp only [List.foldl_cons, List.foldl_nil, ih, recordIntervention]
      simp [List.rtake_eq_reverse_take_reverse, List.take_take]

/-- Claim C6 (amended): the dispatcher path prepends and truncates, so the
ledger it builds from any sequence of intervention messages is exactly the
50 most recent records (newest first) and never exceeds 50 — in particular
60 messages leave 50 records with the oldest 10 evicted in FIFO order — but
the approval path (`handleApprove`) prepends with NO truncation, growing
the ledger by one whatever its size. -/
theorem ledger_truncation_amended (prev : List Intervention) (i : Intervention)
    (ds : List InterventionData) (ok : Bool) (st : WarRoomState) (a : ApprovalRequest)
    (logId ts : String) :
    (recordIntervention prev i).length ≤ 50 ∧
    (ds.map mkIntervention).foldl recordIntervention []
      = ((ds.map mkIntervention).rtake 50).reverse ∧
    (handleApprove ok st a logId ts).interventions.length = st.interventions.length + 1 := by
  refine ⟨?_, foldl_recordIntervention _, ?_⟩
  · simp only [recordIntervention, List.length_cons, List.length_take]
    omega
  · cases ok <;> simp [handleApprove]

end PaymentOps
